import Mathlib

/-!
Verification development for a user-registration and account-activation
backend.  The data model, the registration and activation services, the
validation layer and the localization layer are embedded as executable
Lean definitions; the error-responder middleware is translated from the
JavaScript source.  Theorems below settle the specified properties.
-/

set_option maxRecDepth 10000

/-- A persisted user row: id, username, unique email, stored (hashed)
password, nullable activation token, and the inactive flag. -/
structure User where
  id : Nat
  username : String
  email : String
  password : String
  activationToken : Option String
  inactive : Bool
deriving Repr, DecidableEq

/-- A registration request body.  Fields are nullable (JSON null is
representable); a client may also send an `inactive` field, which the
service must ignore. -/
structure Candidate where
  username : Option String
  email : Option String
  password : Option String
  inactive : Option Bool
deriving Repr, DecidableEq

/-- Splits a character list on a separator character; mirrors the
behaviour of string splitting with a one-character separator. -/
def splitOnChar (sep : Char) : List Char → List (List Char)
  | [] => [[]]
  | c :: rest =>
    let r := splitOnChar sep rest
    if c = sep then [] :: r
    else
      match r with
      | [] => [[c]]
      | h :: t => (c :: h) :: t

/-- Modelled from the spec: RFC-shaped email check used by the validation
layer (the validator chain itself is not in the sources, only its tests).
A shaped email has exactly one at-sign, a nonempty local part, and a
domain with at least two nonempty dot-separated labels. -/
def isEmailShaped (s : String) : Bool :=
  match splitOnChar ('@') s.data with
  | [l, d] =>
    let parts := splitOnChar ('.') d
    !l.isEmpty && decide (2 ≤ parts.length) && parts.all (fun p => !p.isEmpty)
  | _ => false

/-- Modelled from the spec: username rule of the validation layer
(non-null, length between 4 and 32); returns the error key of the first
failing check, or none. -/
def validateUsername : Option String → Option String
  | none => some "username_null"
  | some u => if u.length < 4 ∨ 32 < u.length then some "username_size" else none

/-- Modelled from the spec: email format rule of the validation layer
(non-null and RFC-shaped); returns the error key of the first failing
check, or none. -/
def validateEmailFormat : Option String → Option String
  | none => some "email_null"
  | some e => if isEmailShaped e then none else some "email_invalid"

/-- Modelled from the spec: password rule of the validation layer
(non-null, length at least 6, at least one uppercase letter, one
lowercase letter and one digit); returns the error key of the first
failing check, or none. -/
def validatePassword : Option String → Option String
  | none => some "password_null"
  | some p =>
    if p.length < 6 then some "password_size"
    else if !(p.data.any Char.isUpper && p.data.any Char.isLower && p.data.any Char.isDigit) then
      some "password_pattern"
    else none

/-- Turns a per-field optional error key into a fragment of the ordered
field-to-key mapping. -/
def errEntry (field : String) : Option String → List (String × String)
  | none => []
  | some k => [(field, k)]

/-- Modelled from the spec: the pure validation layer, producing the
ordered field-to-error-key mapping (declaration order username, email,
password); no entry for a passing field. -/
def validateUser (c : Candidate) : List (String × String) :=
  errEntry "username" (validateUsername c.username) ++
  errEntry "email" (validateEmailFormat c.email) ++
  errEntry "password" (validatePassword c.password)

/-- Modelled from the spec: the email check used by registration: format
errors first; if the format passes, a user already stored with the same
email yields the in-use error key. -/
def emailError (store : List User) (e : Option String) : Option String :=
  match validateEmailFormat e with
  | some k => some k
  | none =>
    if store.any (fun u => some u.email == e) then some "email_inuse" else none

/-- Modelled from the spec: the field-to-error-key mapping collected by
the registration service: the pure rules plus the duplicate-email check,
merged in declaration order username, email, password. -/
def validateForRegister (store : List User) (c : Candidate) : List (String × String) :=
  errEntry "username" (validateUsername c.username) ++
  errEntry "email" (emailError store c.email) ++
  errEntry "password" (validatePassword c.password)

/-- The failure kinds of the registration service. -/
inductive RegisterError
  | validation (errors : List (String × String))
  | emailDelivery
deriving Repr, DecidableEq

/-- Modelled from the spec: the registration service (its module is not
in the sources).  Runs validation and the duplicate-email check; on
failure returns a ValidationError and leaves the store unchanged.
Otherwise hashes the password, persists the user inactive with the fresh
activation token, then attempts the activation email: on delivery
failure the newly persisted row is deleted again and the service fails
with EmailDeliveryError. -/
def register (store : List User) (c : Candidate) (hash : String → String)
    (token : String) (emailOk : Bool) (newId : Nat) :
    Except RegisterError Nat × List User :=
  let errs := validateForRegister store c
  if errs.isEmpty then
    match c.username, c.email, c.password with
    | some un, some em, some pw =>
      let newUser : User :=
        { id := newId, username := un, email := em, password := hash pw,
          activationToken := some token, inactive := true }
      let persisted := store ++ [newUser]
      if emailOk then (Except.ok newId, persisted)
      else (Except.error RegisterError.emailDelivery,
            persisted.filter (fun u => u.id != newId))
    | _, _, _ => (Except.error (RegisterError.validation errs), store)
  else (Except.error (RegisterError.validation errs), store)

/-- The failure kind of the activation service. -/
inductive ActivationError
  | invalidToken
deriving Repr, DecidableEq

/-- The single-row update applied on successful activation: clear the
token, leave inactive mode. -/
def activateRow (u : User) : User :=
  { u with inactive := false, activationToken := none }

/-- Modelled from the spec: the activation service (its module is not in
the sources).  Finds the first user whose activationToken equals the
presented token; if none exists the service fails with
InvalidTokenError, otherwise that single row is updated. -/
def activate : List User → String → Except ActivationError (List User)
  | [], _ => Except.error ActivationError.invalidToken
  | u :: rest, token =>
    if u.activationToken = some token then
      Except.ok (activateRow u :: rest)
    else
      match activate rest token with
      | Except.error e => Except.error e
      | Except.ok rest2 => Except.ok (u :: rest2)

/-- Runs activation against a store, keeping the store unchanged when the
service fails. -/
def runActivation (store : List User) (token : String) :
    List User × Option ActivationError :=
  match activate store token with
  | Except.ok newStore => (newStore, none)
  | Except.error e => (store, some e)

/-- The error object consumed by the error-handler middleware: a message
key, an HTTP status, and for validation failures the validator result
whose `array()` lists (param, message-key) pairs in report order. -/
structure ErrShape where
  message : String
  status : Nat
  errors : Option (List (String × String))
deriving Repr, DecidableEq

/-- The JSON error envelope the middleware sends. -/
structure ErrorBody where
  path : String
  timestamp : Int
  message : String
  validationErrors : Option (List (String × String))
deriving Repr, DecidableEq

/-- One JavaScript-object assignment `obj[k] = v`: if the key is already
present its value is replaced in place (insertion order kept), otherwise
the pair is appended. -/
def insertOrReplace : List (String × String) → String → String → List (String × String)
  | [], k, v => [(k, v)]
  | (k0, v0) :: rest, k, v =>
    if k0 = k then (k0, v) :: rest
    else (k0, v0) :: insertOrReplace rest k v

/-- The middleware loop `errors.array().forEach((error) =>
validationErrors[error.param] = req.t(error.msg))`: a fold over the
error array assigning the translated message per field, later
assignments overwriting earlier ones. -/
def buildValidationErrors (t : String → String) (arr : List (String × String)) :
    List (String × String) :=
  arr.foldl (fun m e => insertOrReplace m e.1 (t e.2)) []

/-- The error-handler middleware from the source: reads the clock, pulls
message, status and errors off the error object, builds the per-field
translated mapping when a validator result is present, and responds with
the status and the envelope (path, timestamp, translated message,
optional validationErrors). -/
def errorHandler (t : String → String) (path : String) (now : Int) (err : ErrShape) :
    Nat × ErrorBody :=
  ( err.status,
    { path := path
      timestamp := now
      message := t err.message
      validationErrors := err.errors.map (buildValidationErrors t) } )

/-- Modelled from the spec: the ValidationError object raised by the
registration route (the error classes are not in the sources): status
400, the generic validation-failure message key, and the collected
per-field error array. -/
def validationErrorShape (errs : List (String × String)) : ErrShape :=
  { message := "validation_failure", status := 400, errors := some errs }

/-- Modelled from the spec: the EmailDeliveryError object raised when the
activation email cannot be delivered: status 502, the email-failure
message key, no validator result. -/
def emailDeliveryErrorShape : ErrShape :=
  { message := "email_failure", status := 502, errors := none }

/-- Modelled from the spec: the InvalidTokenError object raised on a
failed activation: status 400, the invalid-token message key, no
validator result. -/
def invalidTokenErrorShape : ErrShape :=
  { message := "account_activation_failure", status := 400, errors := none }

/-- The locales the application ships translations for. -/
def supportedLocales : List String := ["en", "ko"]

/-- The fallback locale used when the requested one is absent or
unsupported. -/
def fallbackLocale : String := "en"

/-- Modelled from the spec: the English message catalogue (the locale
files are not in the sources; the strings are fixed by the tests). -/
def enMessages : String → Option String
  | "username_null" => some "Username cannot be null"
  | "username_size" => some "Must have min 4 and max 32 characters"
  | "email_null" => some "E-mail cannot be null"
  | "email_invalid" => some "E-mail is not valid"
  | "password_null" => some "Password cannot be null"
  | "password_size" => some "Password must be at least 6 characters"
  | "password_pattern" => some "Password must have at least 1 uppercase, 1 lowercase and 1 number"
  | "email_inuse" => some "E-mail in use"
  | "user_create_success" => some "User created"
  | "email_failure" => some "E-mail Failure"
  | "validation_failure" => some "validation failure"
  | "account_activation_failure" => some "This account is either active or the token is invalid."
  | _ => none

/-- Modelled from the spec: the Korean message catalogue (the locale
files are not in the sources; the strings are fixed by the tests). -/
def koMessages : String → Option String
  | "username_null" => some "사용자명은 null이 될 수 없습니다."
  | "username_size" => some "최소 4자 이상 32자 이하이어야 합니다."
  | "email_null" => some "E-mail은 null이 될 수 없습니다."
  | "email_invalid" => some "E-mail이 유효하지 않습니다."
  | "password_null" => some "Password는 null이 될 수 없습니다."
  | "password_size" => some "Password 최소 6자 이상이어야 합니다."
  | "password_pattern" => some "Password는 최소한 대문자 1개, 소문자 1개, 숫자 1개를 포함하여야 합니다."
  | "email_inuse" => some "이미 사용중인 email입니다."
  | "user_create_success" => some "사용자가 생성되었습니다."
  | "email_failure" => some "이메일 실패"
  | "validation_failure" => some "유효성 검사 실패"
  | "account_activation_failure" => some "잘못된 토큰 정보입니다."
  | _ => none

/-- The message keys the application resolves through localization. -/
def messageKeys : List String :=
  ["username_null", "username_size", "email_null", "email_invalid",
   "password_null", "password_size", "password_pattern", "email_inuse",
   "user_create_success", "email_failure", "validation_failure",
   "account_activation_failure"]

/-- Modelled from the spec: locale negotiation: the requested locale when
supported, the fallback locale when absent or unsupported. -/
def resolveLocale : Option String → String
  | none => fallbackLocale
  | some l => if supportedLocales.contains l then l else fallbackLocale

/-- The catalogue for a resolved locale. -/
def messagesFor (locale : String) : String → Option String :=
  if locale = "ko" then koMessages else enMessages

/-- Modelled from the spec: key resolution: look the key up in the
negotiated catalogue, fall back to the default catalogue, and return the
key itself as a last resort (never throws). -/
def translateMessage (requested : Option String) (key : String) : String :=
  match messagesFor (resolveLocale requested) key with
  | some s => s
  | none =>
    match enMessages key with
    | some s => s
    | none => key

/-- The last message reported for a field in a validator error array:
none when the field never occurs, otherwise the message of its last
occurrence. -/
def lastMessageFor (field : String) : List (String × String) → Option String
  | [] => none
  | (k, v) :: rest =>
    match lastMessageFor field rest with
    | some msg => some msg
    | none => if k = field then some v else none

/-- Modelled from the spec: the username rule as stated: non-null with
length between 4 and 32. -/
def usernameRuleOk : Option String → Prop
  | none => False
  | some u => 4 ≤ u.length ∧ u.length ≤ 32

/-- Modelled from the spec: the email rule as stated: non-null and
RFC-shaped. -/
def emailRuleOk : Option String → Prop
  | none => False
  | some e => isEmailShaped e = true

/-- Modelled from the spec: the password rule as stated: non-null, length
at least 6, and containing at least one uppercase letter, one lowercase
letter and one digit. -/
def passwordRuleOk : Option String → Prop
  | none => False
  | some p =>
    6 ≤ p.length ∧
    (p.data.any Char.isUpper && p.data.any Char.isLower && p.data.any Char.isDigit) = true

/-- A sample hash function standing in for bcrypt in concrete runs; the
only property used is that hashing changes the value. -/
def demoHash (s : String) : String := String.append "hashed-" s

/-- The valid request body the tests post. -/
def validCand : Candidate :=
  { username := some "user1", email := some "user1@mail.com",
    password := some "P4ssword", inactive := none }

/-- The valid request body with an explicit inactive flag, as in the
test posting `inactive: false`. -/
def inactiveFalseCand : Candidate :=
  { username := some "user1", email := some "user1@mail.com",
    password := some "P4ssword", inactive := some false }

/-- A stored row as produced by a successful registration of the valid
request body. -/
def user1Row : User :=
  { id := 1, username := "user1", email := "user1@mail.com",
    password := "hashed-P4ssword", activationToken := some "tok-1",
    inactive := true }

lemma validateUsername_eq_none_iff (u : Option String) :
    validateUsername u = none ↔ usernameRuleOk u := by
  cases u with
  | none => simp [validateUsername, usernameRuleOk]
  | some s =>
    by_cases h : s.length < 4 ∨ 32 < s.length
    · simp [validateUsername, usernameRuleOk, if_pos h]
      omega
    · simp [validateUsername, usernameRuleOk, if_neg h]
      omega

lemma validateEmailFormat_eq_none_iff (e : Option String) :
    validateEmailFormat e = none ↔ emailRuleOk e := by
  cases e with
  | none => simp [validateEmailFormat, emailRuleOk]
  | some s =>
    by_cases h : isEmailShaped s
    · simp [validateEmailFormat, emailRuleOk, h]
    · simp [validateEmailFormat, emailRuleOk, h]

lemma validatePassword_eq_none_iff (p : Option String) :
    validatePassword p = none ↔ passwordRuleOk p := by
  cases p with
  | none => simp [validatePassword, passwordRuleOk]
  | some s =>
    by_cases h1 : s.length < 6
    · simp [validatePassword, passwordRuleOk, if_pos h1]
      omega
    · by_cases h2 : (s.data.any Char.isUpper && s.data.any Char.isLower &&
          s.data.any Char.isDigit) = true
      · simp [validatePassword, passwordRuleOk, if_neg h1, h2]
        omega
      · simp [validatePassword, passwordRuleOk, if_neg h1, h2]

/-- C4: the validation layer produces an error key for a field exactly
when that field violates its rule (username non-null with length in
[4,32]; email non-null and RFC-shaped; password non-null, length at
least 6, with an uppercase letter, a lowercase letter and a digit), and
the output mapping is empty exactly when every field passes. -/
theorem validation_layer_exact (c : Candidate) :
    ((validateUser c).lookup "username" ≠ none ↔ ¬ usernameRuleOk c.username) ∧
    ((validateUser c).lookup "email" ≠ none ↔ ¬ emailRuleOk c.email) ∧
    ((validateUser c).lookup "password" ≠ none ↔ ¬ passwordRuleOk c.password) ∧
    (validateUser c = [] ↔
      usernameRuleOk c.username ∧ emailRuleOk c.email ∧ passwordRuleOk c.password) := by
  have hu := validateUsername_eq_none_iff c.username
  have he := validateEmailFormat_eq_none_iff c.email
  have hp := validatePassword_eq_none_iff c.password
  rcases h1 : validateUsername c.username with _ | k1 <;>
    rcases h2 : validateEmailFormat c.email with _ | k2 <;>
      rcases h3 : validatePassword c.password with _ | k3 <;>
        rw [h1] at hu <;> rw [h2] at he <;> rw [h3] at hp <;>
          simp_all [validateUser, errEntry, List.lookup]

/-- C3: registering with an email equal to the email of a stored user (stored
rows carry RFC-shaped emails by the data-model invariant) fails with a
ValidationError whose mapping carries the email-in-use key, merged with
any other failing fields in declaration order username, email, password;
the store, and in particular the previously stored row, is unchanged. -/
theorem duplicate_email_rejected (store : List User) (c : Candidate) (w : User)
    (hash : String → String) (token : String) (emailOk : Bool) (newId : Nat)
    (hw : w ∈ store) (he : c.email = some w.email)
    (hshape : isEmailShaped w.email = true) :
    (register store c hash token emailOk newId).1 =
      Except.error (RegisterError.validation (validateForRegister store c)) ∧
    (register store c hash token emailOk newId).2 = store ∧
    (validateForRegister store c).lookup "email" = some "email_inuse" ∧
    List.Sublist ((validateForRegister store c).map Prod.fst)
      ["username", "email", "password"] ∧
    w ∈ (register store c hash token emailOk newId).2 := by
  have hfmt : validateEmailFormat c.email = none := by
    rw [he]
    simp [validateEmailFormat, hshape]
  have hdup : store.any (fun u => some u.email == c.email) = true := by
    rw [List.any_eq_true]
    refine ⟨w, hw, ?_⟩
    rw [he]
    simp
  have hEmail : emailError store c.email = some "email_inuse" := by
    simp [emailError, hfmt, hdup]
  have hne : validateForRegister store c ≠ [] := by
    unfold validateForRegister
    rw [hEmail]
    simp [errEntry]
  have hie : (validateForRegister store c).isEmpty = false := by
    simp [List.isEmpty_iff, hne]
  have hreg : register store c hash token emailOk newId =
      (Except.error (RegisterError.validation (validateForRegister store c)), store) := by
    simp [register, hie]
  refine ⟨by rw [hreg], by rw [hreg], ?_, ?_, by rw [hreg]; exact hw⟩
  · rcases h1 : validateUsername c.username with _ | k1 <;>
      rcases h3 : validatePassword c.password with _ | k3 <;>
        simp [validateForRegister, errEntry, h1, hEmail, h3, List.lookup]
  · rcases h1 : validateUsername c.username with _ | k1 <;>
      rcases h3 : validatePassword c.password with _ | k3 <;>
        simp [validateForRegister, errEntry, h1, hEmail, h3]

/-- Witness for C3 at a concrete store and request. -/
theorem duplicate_email_rejected_witness :
    (validateForRegister [user1Row] validCand).lookup "email" = some "email_inuse" :=
  (duplicate_email_rejected [user1Row] validCand user1Row demoHash "tok-2" true 2
    (by decide) rfl (by decide)).2.2.1

/-- C1: when a request passes validation and the duplicate-email check
but the activation email cannot be delivered, registration deletes the
newly persisted row again, so the store equals its pre-call contents,
and the failure is an EmailDeliveryError answered 502 with the localized
email-failure message. -/
theorem email_failure_rolls_back (store : List User) (c : Candidate)
    (hash : String → String) (token : String) (newId : Nat)
    (un em pw lang path : String) (now : Int)
    (hun : c.username = some un) (hem : c.email = some em) (hpw : c.password = some pw)
    (hv : validateForRegister store c = [])
    (hfresh : ∀ u ∈ store, u.id ≠ newId) :
    (register store c hash token false newId).1 =
      Except.error RegisterError.emailDelivery ∧
    (register store c hash token false newId).2 = store ∧
    (errorHandler (translateMessage (some lang)) path now emailDeliveryErrorShape).1 = 502 ∧
    (errorHandler (translateMessage (some lang)) path now emailDeliveryErrorShape).2.message =
      translateMessage (some lang) "email_failure" := by
  have hsf : store.filter (fun u => u.id != newId) = store := by
    rw [List.filter_eq_self]
    intro u hu
    simpa using hfresh u hu
  refine ⟨?_, ?_, rfl, rfl⟩
  · simp [register, hv, hun, hem, hpw]
  · simp [register, hv, hun, hem, hpw, List.filter_append, hsf]

/-- Witness for C1 at a concrete request against the empty store. -/
theorem email_failure_rolls_back_witness :
    (register [] validCand demoHash "tok-1" false 1).1 =
      Except.error RegisterError.emailDelivery ∧
    (register [] validCand demoHash "tok-1" false 1).2 = [] :=
  ⟨(email_failure_rolls_back [] validCand demoHash "tok-1" 1 "user1" "user1@mail.com"
      "P4ssword" "ko" "/api/1.0/users" 0 rfl rfl rfl rfl (by simp)).1,
   (email_failure_rolls_back [] validCand demoHash "tok-1" 1 "user1" "user1@mail.com"
      "P4ssword" "ko" "/api/1.0/users" 0 rfl rfl rfl rfl (by simp)).2.1⟩

/-- C2: a successful registration stores the row inactive with a
non-null activation token and the hashed (hence different) password;
the stored row does not depend on any inactive field sent in the
request body. -/
theorem register_success_invariants (store : List User) (c : Candidate)
    (hash : String → String) (token : String) (newId : Nat)
    (un em pw : String)
    (hun : c.username = some un) (hem : c.email = some em) (hpw : c.password = some pw)
    (hv : validateForRegister store c = [])
    (hhash : hash pw ≠ pw) :
    ∃ newUser : User,
      register store c hash token true newId = (Except.ok newId, store ++ [newUser]) ∧
      newUser.inactive = true ∧
      newUser.activationToken = some token ∧
      newUser.activationToken ≠ none ∧
      newUser.password = hash pw ∧
      newUser.password ≠ pw ∧
      (∀ b : Option Bool,
        register store { c with inactive := b } hash token true newId =
          register store c hash token true newId) := by
  refine ⟨{ id := newId, username := un, email := em, password := hash pw,
            activationToken := some token, inactive := true },
          ?_, rfl, rfl, by simp, rfl, hhash, fun b => rfl⟩
  simp [register, hv, hun, hem, hpw]

/-- Witness for C2 at a concrete request that carries inactive: false. -/
theorem register_success_invariants_witness :
    ∃ newUser : User,
      register [] inactiveFalseCand demoHash "tok-1" true 1 =
        (Except.ok 1, [] ++ [newUser]) ∧
      newUser.inactive = true ∧
      newUser.activationToken = some "tok-1" ∧
      newUser.activationToken ≠ none ∧
      newUser.password = demoHash "P4ssword" ∧
      newUser.password ≠ "P4ssword" ∧
      (∀ b : Option Bool,
        register [] { inactiveFalseCand with inactive := b } demoHash "tok-1" true 1 =
          register [] inactiveFalseCand demoHash "tok-1" true 1) :=
  register_success_invariants [] inactiveFalseCand demoHash "tok-1" 1
    "user1" "user1@mail.com" "P4ssword" rfl rfl rfl rfl (by decide)

lemma activate_of_all_not (store : List User) (token : String)
    (h : ∀ v ∈ store, v.activationToken ≠ some token) :
    activate store token = Except.error ActivationError.invalidToken := by
  induction store with
  | nil => rfl
  | cons u rest ih =>
    have hu : u.activationToken ≠ some token := h u (List.mem_cons_self u rest)
    have hrest := ih (fun v hv => h v (List.mem_cons_of_mem u hv))
    simp [activate, hu, hrest]

lemma activate_found (pre : List User) (u : User) (post : List User) (token : String)
    (hpre : ∀ v ∈ pre, v.activationToken ≠ some token)
    (hu : u.activationToken = some token) :
    activate (pre ++ u :: post) token = Except.ok (pre ++ activateRow u :: post) := by
  induction pre with
  | nil => simp [activate, hu]
  | cons v rest ih =>
    have hv : v.activationToken ≠ some token := hpre v (List.mem_cons_self v rest)
    have ih2 := ih (fun w hw => hpre w (List.mem_cons_of_mem v hw))
    simp [activate, hv, ih2]

/-- C5: activating with the token carried by a stored row flips that row
to active and clears its token, leaving every other row alone; since the
token was unique and is now cleared, presenting the same token again
fails with InvalidTokenError. -/
theorem activation_round_trip (pre post : List User) (u : User) (token : String)
    (hu : u.activationToken = some token)
    (hpre : ∀ v ∈ pre, v.activationToken ≠ some token)
    (hpost : ∀ v ∈ post, v.activationToken ≠ some token) :
    activate (pre ++ u :: post) token = Except.ok (pre ++ activateRow u :: post) ∧
    (activateRow u).inactive = false ∧
    (activateRow u).activationToken = none ∧
    activate (pre ++ activateRow u :: post) token =
      Except.error ActivationError.invalidToken := by
  refine ⟨activate_found pre u post token hpre hu, rfl, rfl, ?_⟩
  apply activate_of_all_not
  intro v hv
  rcases List.mem_append.mp hv with h | h
  · exact hpre v h
  · rcases List.mem_cons.mp h with h | h
    · rw [h]
      simp [activateRow]
    · exact hpost v h

/-- Witness for C5 at a one-row store. -/
theorem activation_round_trip_witness :
    activate ([] ++ user1Row :: []) "tok-1" =
      Except.ok ([] ++ activateRow user1Row :: []) ∧
    (activateRow user1Row).inactive = false ∧
    (activateRow user1Row).activationToken = none ∧
    activate ([] ++ activateRow user1Row :: []) "tok-1" =
      Except.error ActivationError.invalidToken :=
  activation_round_trip [] [] user1Row "tok-1" rfl (by simp) (by simp)

/-- C6: a token matching no stored row (active rows carry a null token,
so their former tokens match nothing) makes activation fail with
InvalidTokenError, answered 400 with the localized invalid-token message
and no validationErrors key, and the store is unchanged. -/
theorem invalid_token_no_effect (store : List User) (token lang path : String)
    (now : Int)
    (h : ∀ v ∈ store, v.activationToken ≠ some token) :
    activate store token = Except.error ActivationError.invalidToken ∧
    runActivation store token = (store, some ActivationError.invalidToken) ∧
    (errorHandler (translateMessage (some lang)) path now invalidTokenErrorShape).1 = 400 ∧
    (errorHandler (translateMessage (some lang)) path now invalidTokenErrorShape).2.message =
      translateMessage (some lang) "account_activation_failure" ∧
    (errorHandler (translateMessage (some lang)) path now
        invalidTokenErrorShape).2.validationErrors = none := by
  have ha := activate_of_all_not store token h
  exact ⟨ha, by simp [runActivation, ha], rfl, rfl, rfl⟩

/-- Witness for C6 at a one-row store and a wrong token. -/
theorem invalid_token_no_effect_witness :
    activate [user1Row] "this token does not exist" =
      Except.error ActivationError.invalidToken ∧
    runActivation [user1Row] "this token does not exist" =
      ([user1Row], some ActivationError.invalidToken) :=
  ⟨(invalid_token_no_effect [user1Row] "this token does not exist" "en"
      "/api/1.0/users/token/x" 0 (by decide)).1,
   (invalid_token_no_effect [user1Row] "this token does not exist" "en"
      "/api/1.0/users/token/x" 0 (by decide)).2.1⟩

/-- C7: the error responder maps ValidationError to 400 with the
localized generic validation-failure message and a validationErrors
mapping, EmailDeliveryError to 502 with the localized email-failure
message and no validationErrors, InvalidTokenError to 400 with the
localized invalid-token message and no validationErrors; every error
body carries the request path and a timestamp equal to the clock read
when the response is built, hence within 5 seconds of call time. -/
theorem error_responder_contract (lang path : String) (now : Int)
    (errs : List (String × String)) (shape : ErrShape) :
    (errorHandler (translateMessage (some lang)) path now (validationErrorShape errs)).1
      = 400 ∧
    (errorHandler (translateMessage (some lang)) path now (validationErrorShape errs)).2.message
      = translateMessage (some lang) "validation_failure" ∧
    (errorHandler (translateMessage (some lang)) path now
        (validationErrorShape errs)).2.validationErrors
      = some (buildValidationErrors (translateMessage (some lang)) errs) ∧
    (errorHandler (translateMessage (some lang)) path now emailDeliveryErrorShape).1 = 502 ∧
    (errorHandler (translateMessage (some lang)) path now emailDeliveryErrorShape).2.message
      = translateMessage (some lang) "email_failure" ∧
    (errorHandler (translateMessage (some lang)) path now
        emailDeliveryErrorShape).2.validationErrors = none ∧
    (errorHandler (translateMessage (some lang)) path now invalidTokenErrorShape).1 = 400 ∧
    (errorHandler (translateMessage (some lang)) path now invalidTokenErrorShape).2.message
      = translateMessage (some lang) "account_activation_failure" ∧
    (errorHandler (translateMessage (some lang)) path now
        invalidTokenErrorShape).2.validationErrors = none ∧
    (errorHandler (translateMessage (some lang)) path now shape).2.path = path ∧
    (errorHandler (translateMessage (some lang)) path now shape).2.timestamp = now ∧
    now ≤ (errorHandler (translateMessage (some lang)) path now shape).2.timestamp ∧
    (errorHandler (translateMessage (some lang)) path now shape).2.timestamp ≤ now + 5000 := by
  refine ⟨rfl, rfl, rfl, rfl, rfl, rfl, rfl, rfl, rfl, rfl, rfl, le_refl now, ?_⟩
  show now ≤ now + 5000
  omega

/-- C8: for every message key of the application, the Korean locale
yields the Korean catalogue text while the default (no header) yields
the English text, the two texts differ, and an absent or unsupported
locale resolves to the fallback locale instead of failing. -/
theorem localization_ko_vs_en :
    (messageKeys.all fun k =>
      (koMessages k).isSome && (enMessages k).isSome &&
      (translateMessage (some "ko") k == (koMessages k).getD "") &&
      (translateMessage none k == (enMessages k).getD "") &&
      (koMessages k != enMessages k)) = true ∧
    (∀ l k : String, supportedLocales.contains l = false →
      translateMessage (some l) k = translateMessage none k) := by
  constructor
  · decide
  · intro l k hl
    have hl2 : l ∉ supportedLocales := by simpa using hl
    simp [translateMessage, resolveLocale, hl2]

/-- Witness for C8: an unsupported locale falls back to the default. -/
theorem localization_ko_vs_en_witness :
    translateMessage (some "fr") "email_failure" = translateMessage none "email_failure" :=
  localization_ko_vs_en.2 "fr" "email_failure" (by decide)

lemma lookup_insertOrReplace (m : List (String × String)) (k v field : String) :
    (insertOrReplace m k v).lookup field =
      if field = k then some v else m.lookup field := by
  induction m with
  | nil =>
    by_cases hf : field = k
    · have hb : (field == k) = true := by simp [hf]
      simp [insertOrReplace, List.lookup, hf, hb]
    · have hb : (field == k) = false := by simp [hf]
      simp [insertOrReplace, List.lookup, hf, hb]
  | cons p rest ih =>
    obtain ⟨k0, v0⟩ := p
    by_cases h0 : k0 = k
    · subst h0
      by_cases hf : field = k0
      · have hb : (field == k0) = true := by simp [hf]
        simp [insertOrReplace, List.lookup, hf, hb]
      · have hb : (field == k0) = false := by simp [hf]
        simp [insertOrReplace, List.lookup, hf, hb]
    · by_cases hf : field = k0
      · have hfk : ¬ field = k := by
          rw [hf]
          exact h0
        have hb : (field == k0) = true := by simp [hf]
        simp [insertOrReplace, h0, List.lookup, hb, hfk]
      · have hb : (field == k0) = false := by simp [hf]
        simp [insertOrReplace, h0, List.lookup, hb, ih]

lemma mem_keys_insertOrReplace (m : List (String × String)) (k v a : String) :
    a ∈ (insertOrReplace m k v).map Prod.fst ↔ a = k ∨ a ∈ m.map Prod.fst := by
  induction m with
  | nil => simp [insertOrReplace]
  | cons p rest ih =>
    obtain ⟨k0, v0⟩ := p
    by_cases h0 : k0 = k
    · subst h0
      simp [insertOrReplace]
    · simp [insertOrReplace, h0, ih]
      tauto

lemma nodup_keys_insertOrReplace (m : List (String × String)) (k v : String)
    (h : (m.map Prod.fst).Nodup) :
    ((insertOrReplace m k v).map Prod.fst).Nodup := by
  induction m with
  | nil => simp [insertOrReplace]
  | cons p rest ih =>
    obtain ⟨k0, v0⟩ := p
    rw [List.map_cons, List.nodup_cons] at h
    obtain ⟨hnotin, hrest⟩ := h
    by_cases h0 : k0 = k
    · subst h0
      have hrw : insertOrReplace ((k0, v0) :: rest) k0 v = (k0, v) :: rest := by
        simp [insertOrReplace]
      rw [hrw, List.map_cons, List.nodup_cons]
      exact ⟨hnotin, hrest⟩
    · simp only [insertOrReplace, if_neg h0]
      rw [List.map_cons, List.nodup_cons]
      refine ⟨?_, ih hrest⟩
      intro hmem
      rcases (mem_keys_insertOrReplace rest k v k0).mp hmem with rfl | hmem2
      · exact h0 rfl
      · exact hnotin hmem2

lemma lookup_foldl_assign (t : String → String) (arr : List (String × String))
    (m : List (String × String)) (field : String) :
    (arr.foldl (fun acc e => insertOrReplace acc e.1 (t e.2)) m).lookup field =
      match lastMessageFor field arr with
      | some msg => some (t msg)
      | none => m.lookup field := by
  induction arr generalizing m with
  | nil => rfl
  | cons e rest ih =>
    obtain ⟨k, v⟩ := e
    rw [List.foldl_cons, ih]
    cases hr : lastMessageFor field rest with
    | some msg => simp [lastMessageFor, hr]
    | none =>
      rw [lookup_insertOrReplace]
      by_cases hf : field = k
      · subst hf
        simp [lastMessageFor, hr]
      · have hk : ¬ k = field := fun hh => hf hh.symm
        simp [lastMessageFor, hr, hf, hk]

lemma nodup_foldl_assign (t : String → String) (arr : List (String × String))
    (m : List (String × String)) (h : (m.map Prod.fst).Nodup) :
    ((arr.foldl (fun acc e => insertOrReplace acc e.1 (t e.2)) m).map Prod.fst).Nodup := by
  induction arr generalizing m with
  | nil => exact h
  | cons e rest ih =>
    rw [List.foldl_cons]
    exact ih _ (nodup_keys_insertOrReplace m e.1 (t e.2) h)

/-- C9: the validationErrors object built by the error handler maps each
failing field to exactly one message (its keys are duplicate-free), and
when the validator reports several errors for one field the entry
produced is the translation of the message listed last for that field,
since each assignment in array order overwrites the previous one. -/
theorem responder_last_error_wins (t : String → String)
    (arr : List (String × String)) (field : String) :
    (buildValidationErrors t arr).lookup field = (lastMessageFor field arr).map t ∧
    ((buildValidationErrors t arr).map Prod.fst).Nodup := by
  constructor
  · rw [buildValidationErrors, lookup_foldl_assign]
    cases lastMessageFor field arr <;> simp [List.lookup]
  · exact nodup_foldl_assign t arr [] (by simp)

/-- C10 counterexample: the claim that the timestamp is strictly greater
than every clock reading taken at or before the request fails when the
clock has not advanced between the earlier reading and the moment the
response is built: both readings can fall in the same millisecond. -/
theorem timestamp_strictness_counterexample :
    ¬ (∀ (tBefore now : Int) (t : String → String) (path : String) (err : ErrShape),
        tBefore ≤ now →
          tBefore < (errorHandler t path now err).2.timestamp) := by
  intro hclaim
  have h := hclaim 0 0 id "/api/1.0/users" invalidTokenErrorShape le_rfl
  simp [errorHandler] at h

/-- C10 amended: the error responder stamps the body with the clock value
read when the response is built, so the timestamp is at least as large
as every clock reading taken at or before that moment; strict growth
only holds when the clock has advanced. -/
theorem timestamp_from_build_clock (tBefore now : Int) (t : String → String)
    (path : String) (err : ErrShape) (h : tBefore ≤ now) :
    (errorHandler t path now err).2.timestamp = now ∧
    tBefore ≤ (errorHandler t path now err).2.timestamp :=
  ⟨rfl, h⟩

/-- Witness for the amended C10 at concrete clock values. -/
theorem timestamp_from_build_clock_witness :
    (errorHandler id "/api/1.0/users" 7 invalidTokenErrorShape).2.timestamp = 7 ∧
    (3 : Int) ≤ (errorHandler id "/api/1.0/users" 7 invalidTokenErrorShape).2.timestamp :=
  timestamp_from_build_clock 3 7 id "/api/1.0/users" invalidTokenErrorShape (by decide)
